import Mathlib

/-!
Verification of flask-imagekit against its natural-language specification.

Each Python function relevant to the claims is shallowly embedded as an
executable Lean definition, translated from the repository sources
(`src/flask_imagekit/...`).  Machine-level concerns (module import
environments, the attribute-descriptor protocol, the shared in-memory
cache) are made explicit.  Wall-clock time is threaded as an explicit
parameter.
-/

namespace FlaskImagekit

/-! ## utils.py: sanitize_cache_key

The package is Python 2 code (basestring, iteritems, StringIO, urlparse),
and the pattern literal in utils.py is a plain (unescaped) Python 2 str,
so its backslash-u sequences are not unicode escapes: the character class
of bad_memcached_key_chars parses as the literal characters
u,0,0,0,0,-,u,0,0,1,f together with the whitespace class, in which the
middle 0,-,u forms the range 0x30-0x75 (absorbing the remaining
literals).  The regex therefore matches the printable range '0'..'u' plus
ASCII whitespace -- not the control range -- and `sub('', key)` deletes
every such character. -/

/-- A character matched by bad_memcached_key_chars as Python 2 actually
parses the unescaped pattern: the literal range from '0' (0x30) to 'u'
(0x75), plus ASCII whitespace (space and 0x09..0x0d).  Control characters
below 0x09 are NOT matched. -/
def isBadMemcachedChar (c : Char) : Bool :=
  (0x30 ≤ c.toNat && c.toNat ≤ 0x75) || c = ' '
    || (0x09 ≤ c.toNat && c.toNat ≤ 0x0d)

/-- Translation of bad_memcached_key_chars.sub('', key): delete every
matched character. -/
def stripBadChars (s : String) : String :=
  String.mk (s.data.filter (fun c => !isBadMemcachedChar c))

/-- Python slice s[:n] -- the first n characters. -/
def strTake (s : String) (n : Nat) : String :=
  String.mk (s.data.take n)

/-- Lowercase hexadecimal digit for n < 16. -/
def hexChar (n : Nat) : Char :=
  if n < 10 then Char.ofNat (48 + n) else Char.ofNat (87 + n)

/-- Render a natural number as exactly 32 lowercase hex digits (least
significant first; the digit order is irrelevant to the claims). -/
def renderHex32 (n : Nat) : String :=
  String.mk ((List.range 32).map (fun i => hexChar (n / 16 ^ i % 16)))

/-- A deterministic content hash of a string. -/
def strHash (s : String) : Nat :=
  s.data.foldl (fun a c => a * 131 + c.toNat + 1) 7

/-- Model of hashlib md5(key).hexdigest(): a deterministic digest of the key
rendered as exactly 32 lowercase hexadecimal characters.  (The md5
compression function itself is an external-library detail; the properties
the code relies on are determinism and the 32-hex-character output form,
which this model has.) -/
def md5_hexdigest (s : String) : String :=
  renderHex32 (strHash s)

/-- Translation of utils.sanitize_cache_key.  The first argument is
conf.IMAGEKIT_USE_MEMCACHED_SAFE_CACHE_KEY. -/
def sanitize_cache_key (useMemcachedSafeKey : Bool) (key : String) : String :=
  if useMemcachedSafeKey then
    let new_key := stripBadChars key
    if 200 ≤ new_key.length then
      strTake new_key (200 - 33) ++ ":" ++ md5_hexdigest key
    else new_key
  else key

/-! ## werkzeug.contrib.cache.SimpleCache (the shared `get_cache` instance)

utils.py ends with `get_cache = SimpleCache()`, an in-process cache with
default_timeout 300 seconds.  set(key, value, timeout) stores the value
under an absolute expiry time: an omitted timeout means the default
timeout, and a positive timeout t expires at now + t.  get(key) returns
the value while `expires == 0 or expires > time()`, else nothing.
Wall-clock time is threaded as an explicit `now` parameter. -/

/-- Entry list of the shared SimpleCache: key, absolute expiry, value.
Overwriting is modelled by shadowing (lookup takes the first match). -/
structure SimpleCache where
  entries : List (String × Nat × String)

/-- SimpleCache() is constructed with default_timeout=300. -/
def simplecache_default_timeout : Nat := 300

/-- Translation of SimpleCache._normalize_timeout: an omitted timeout means
the default timeout; a positive timeout becomes the absolute time now + t. -/
def normalize_timeout (timeout : Option Nat) (now : Nat) : Nat :=
  let t := timeout.getD simplecache_default_timeout
  if 0 < t then now + t else t

/-- Translation of SimpleCache.set(key, value, timeout). -/
def SimpleCache.set (c : SimpleCache) (key value : String)
    (timeout : Option Nat) (now : Nat) : SimpleCache :=
  ⟨(key, normalize_timeout timeout now, value) :: c.entries⟩

/-- Translation of SimpleCache.get(key) at time `now`. -/
def SimpleCache.get (c : SimpleCache) (key : String) (now : Nat) : Option String :=
  match c.entries.find? (fun e => e.1 == key) with
  | none => none
  | some (_, expires, v) => if expires = 0 ∨ now < expires then some v else none

/-! ## cachefiles/backends.py -/

/-- The three cache-file states (class CacheFileState). -/
inductive CacheFileState where
  | EXISTS
  | GENERATING
  | DOES_NOT_EXIST
deriving DecidableEq, Repr

/-- The string value each state name is bound to in the source. -/
def CacheFileState.toStr : CacheFileState → String
  | .EXISTS => "exists"
  | .GENERATING => "generating"
  | .DOES_NOT_EXIST => "does_not_exist"

/-- CachedFileBackend.existence_check_timeout: the number of seconds to wait
before rechecking whether the file exists. -/
def existence_check_timeout : Nat := 5

/-- Translation of CachedFileBackend.get_key: the sanitized
'<IMAGEKIT_CACHE_PREFIX><file.name>-state' key.  `useSafe` is
conf.IMAGEKIT_USE_MEMCACHED_SAFE_CACHE_KEY and `cachePre` is
conf.IMAGEKIT_CACHE_PREFIX. -/
def get_key (useSafe : Bool) (cachePre fileName : String) : String :=
  sanitize_cache_key useSafe (cachePre ++ fileName ++ "-state")

/-- The explicit timeout argument set_state passes to cache.set: the
existence-check timeout for DOES_NOT_EXIST, and no explicit timeout
otherwise. -/
def set_state_timeout (state : CacheFileState) : Option Nat :=
  if state = CacheFileState.DOES_NOT_EXIST then some existence_check_timeout
  else none

/-- Translation of CachedFileBackend.set_state. -/
def set_state (c : SimpleCache) (useSafe : Bool) (cachePre fileName : String)
    (state : CacheFileState) (now : Nat) : SimpleCache :=
  c.set (get_key useSafe cachePre fileName) state.toStr (set_state_timeout state) now

/-- Translation of CachedFileBackend.get_state.  `existsInStorage` is the
outcome of the Simple backend's `_exists(file)` check against storage;
it is consulted only when the cached state is unknown and
`check_if_unknown` is set.  Returns the (possibly updated) cache and the
state string. -/
def get_state (c : SimpleCache) (useSafe : Bool) (cachePre fileName : String)
    (existsInStorage : Bool) (check_if_unknown : Bool) (now : Nat) :
    SimpleCache × Option String :=
  let key := get_key useSafe cachePre fileName
  match c.get key now, check_if_unknown with
  | none, true =>
      let st := if existsInStorage then CacheFileState.EXISTS
                else CacheFileState.DOES_NOT_EXIST
      (set_state c useSafe cachePre fileName st now, some st.toStr)
  | st, _ => (c, st)

/-- Translation of CachedFileBackend.generate_now.  `genResult` is the
outcome of `file._generate()` (ok, or an exception message); the try/except
of the source catches any exception of that call, so the embedding is a
total function: it always returns the updated cache together with the list
of warnings logged through the host application's logger. -/
def generate_now (c : SimpleCache) (useSafe : Bool) (cachePre fileName : String)
    (existsInStorage : Bool) (force : Bool) (genResult : Except String Unit)
    (now : Nat) : SimpleCache × List String :=
  let gs := get_state c useSafe cachePre fileName existsInStorage true now
  if force = true ∨ (gs.2 ≠ some "generating" ∧ gs.2 ≠ some "exists") then
    let c2 := set_state gs.1 useSafe cachePre fileName CacheFileState.GENERATING now
    match genResult with
    | .ok _ =>
        (set_state c2 useSafe cachePre fileName CacheFileState.EXISTS now, [])
    | .error err =>
        (set_state c2 useSafe cachePre fileName CacheFileState.DOES_NOT_EXIST now,
         ["Exception generating file, marking file as not existing: " ++ err])
  else (gs.1, [])

/-! ## specs/__init__.py: ImageSpec.generate

The image-manipulation library calls (open_image, source.open + retry,
process_image) are external-boundary operations; their outcomes are
supplied through a `PipelineEnv`.  Python exception values raised by them
are modelled by `PyErr`; the MissingSource error raised by the spec itself
is a distinct constructor of `SpecGenErr`. -/

/-- An exception coming out of the external open/process pipeline: either a
ValueError (the only kind the source catches and retries the open for) or
any other exception. -/
inductive PyErr where
  | valueError (msg : String)
  | otherError (msg : String)
deriving DecidableEq, Repr

/-- An error surfaced by ImageSpec.generate. -/
inductive SpecGenErr where
  | missingSource (msg : String)
  | pyErr (e : PyErr)
deriving DecidableEq, Repr

/-- Outcomes of the external image pipeline for one generate call: the
first open_image attempt, the attempt after re-opening the source (used
only when the first raises ValueError), and process_image. -/
structure PipelineEnv (Img Out : Type) where
  open1 : Except PyErr Img
  open2 : Except PyErr Img
  process : Img → Except PyErr Out

/-- The open-with-one-retry-then-process body of ImageSpec.generate (the
code after the source check): open the source, retrying once after
source.open() if the first attempt raises ValueError, then run the
processor/format/options pipeline. -/
def run_pipeline {Img Out : Type} (env : PipelineEnv Img Out) : Except SpecGenErr Out :=
  match env.open1 with
  | .ok img => (env.process img).mapError SpecGenErr.pyErr
  | .error (.valueError _) =>
      match env.open2 with
      | .ok img => (env.process img).mapError SpecGenErr.pyErr
      | .error e2 => .error (.pyErr e2)
  | .error e => .error (.pyErr e)

/-- Translation of ImageSpec.generate.  `src` is the spec's bound source
(`none` models a source that is absent or falsy, the `if not self.source`
test); `specRepr` is the '%s' rendering of the spec used in the error
message. -/
def ImageSpec.generate {Src Img Out : Type} (specRepr : String) (src : Option Src)
    (env : PipelineEnv Img Out) : Except SpecGenErr Out :=
  match src with
  | none => .error (.missingSource
      ("The spec '" ++ specRepr ++ "' has no source file associated with it."))
  | some _ => run_pipeline env

/-! ## specs/__init__.py: the module's global name environment (for get_hash)

The body of ImageSpec.get_hash is `return hashers.pickle([...])`.  In
Python the free name `hashers` is resolved, at call time, in the module's
global namespace (and then the builtins).  The names bound at module level
of specs/__init__.py are exactly its imports and its two class
definitions; `hashers` is not a Python builtin. -/

/-- The names bound in the module namespace of flask_imagekit/specs/__init__.py:
its five import statements (binding conf, copy, MissingSource,
get_default_cachefile_backend, load_strategy, open_image, get_by_qname,
process_image) and its two class statements. -/
def specs_module_names : List String :=
  ["conf", "copy", "MissingSource", "get_default_cachefile_backend",
   "load_strategy", "open_image", "get_by_qname", "process_image",
   "BaseImageSpec", "ImageSpec"]

/-- The global (non-local, non-attribute) names referenced by the body of
ImageSpec.get_hash. -/
def get_hash_global_refs : List String := ["hashers"]

/-! ## signals.py: the named event channels

signals.py creates a blinker Namespace and binds exactly three channels on
it.  models/fields/__init__.py line 5 does `from ...signals import
post_init`. -/

/-- The channel names created on the blinker Namespace in
flask_imagekit/signals.py. -/
def imagekit_signal_names : List String :=
  ["content_required", "existence_required", "source_saved"]

/-- The names flask_imagekit/models/fields/__init__.py imports from the
signals module. -/
def fields_signals_imports : List String := ["post_init"]

/-! ## model_helpers/__init__.py: get_image / get_http_asset -/

/-- Python str.startswith, by character lists (String.startsWith itself
does not reduce inside the kernel). -/
def pyStartsWith (s p : String) : Bool :=
  s.data.take p.data.length == p.data

/-- Python str.endswith, by character lists (the last p.length characters
equal p; when p is longer than s the dropped list is shorter than p and
the comparison is false). -/
def pyEndsWith (s p : String) : Bool :=
  s.data.drop (s.data.length - p.data.length) == p.data

/-- Python os.path.join of two components (POSIX): an absolute second
component discards the first; otherwise the parts are joined with exactly
one separator. -/
def pyJoin2 (a b : String) : String :=
  if pyStartsWith b "/" then b
  else if a = "" then b
  else if pyEndsWith a "/" then a ++ b
  else a ++ "/" ++ b

/-- Python os.path.join of three components. -/
def pyJoin3 (a b c : String) : String :=
  pyJoin2 (pyJoin2 a b) c

/-- External-boundary outcomes for source resolution: the HTTP GET of a URL
(status code and body) and whether open(path, 'rb') succeeds. -/
structure ResolveEnv where
  httpGet : String → Nat × String
  openable : String → Bool

/-- A source field value, by the capabilities get_image probes in order: an
optional to_imagekit rendering, whether it has both seek and read
attributes, whether it is a string (and which), and its '%s' rendering for
error messages. -/
structure FieldValue where
  to_imagekit : Option String
  hasSeekRead : Bool
  asString : Option String
  reprStr : String
deriving DecidableEq, Repr

/-- What get_image returns: the field itself (file-like case), an in-memory
buffer of a fetched HTTP body, or a local file handle opened for binary
read. -/
inductive ImageResult where
  | asIs (f : FieldValue)
  | httpBody (body : String)
  | localFile (path : String)
deriving DecidableEq, Repr

/-- The exceptions get_image / get_http_asset raise. -/
inductive ResolveErr where
  | httpError (status : Nat) (url : String)
  | ioError (path : String)
  | cannotExtract (reprStr : String)
deriving DecidableEq, Repr

/-- Translation of get_http_asset: stream the URL; on status 200 buffer the
body into an in-memory stream, otherwise raise an error naming the status
code and the URL. -/
def get_http_asset (env : ResolveEnv) (path : String) : Except ResolveErr ImageResult :=
  let r := env.httpGet path
  if r.1 = 200 then .ok (.httpBody r.2)
  else .error (.httpError r.1 path)

/-- Translation of the local helper handle_string inside get_image.
`mediaRoot` is conf.MEDIA_ROOT and `basePre` is conf.BASE_PREFIX. -/
def handle_string (env : ResolveEnv) (mediaRoot basePre : String)
    (s : String) : Except ResolveErr ImageResult :=
  if pyStartsWith s "http" then get_http_asset env s
  else
    let file_path := pyJoin3 mediaRoot basePre s
    if pyStartsWith file_path "http" then get_http_asset env file_path
    else if env.openable file_path then .ok (.localFile file_path)
    else .error (.ioError file_path)

/-- Translation of get_image: try the to_imagekit capability, then the
file-like (seek and read) capability, then the string cases, and fail with
the cannot-extract error naming the value otherwise. -/
def get_image (env : ResolveEnv) (mediaRoot basePre : String)
    (f : FieldValue) : Except ResolveErr ImageResult :=
  match f.to_imagekit with
  | some s => handle_string env mediaRoot basePre s
  | none =>
      if f.hasSeekRead then .ok (.asIs f)
      else
        match f.asString with
        | some s => handle_string env mediaRoot basePre s
        | none => .error (.cannotExtract f.reprStr)

/-! ## django_ported/storage.py: its import environment

storage.py line 12 is `from ..exceptions import SuspiciousFileOperation`
(the class its get_available_name raises when length-forced truncation
eliminates the whole filename root).  flask_imagekit/exceptions.py binds
exactly its pilkit import and its own exception classes and aliases;
SuspiciousFileOperation is not among them, so importing the storage module
raises ImportError before any storage code can run. -/

/-- The names bound at module level of flask_imagekit/exceptions.py: the
two names imported from pilkit.exceptions, the five exception classes it
defines, and the two backwards-compatibility aliases. -/
def exceptions_module_names : List String :=
  ["UnknownExtension", "UnknownFormat", "AlreadyRegistered", "NotRegistered",
   "MissingGeneratorId", "MissingSource", "ImproperlyConfigured",
   "UnknownExtensionError", "UnknownFormatError"]

/-- The names flask_imagekit/django_ported/storage.py imports from the
package's exceptions module. -/
def storage_exceptions_imports : List String := ["SuspiciousFileOperation"]

/-! ## models/fields/utils.py: ImageSpecFileDescriptor

ImageSpecFileDescriptor defines both __get__ and __set__, so it is a
Python data descriptor: an attribute read on an instance invokes __get__
unconditionally -- the instance __dict__ entry is never consulted by
attribute lookup.  __get__ (for instance is not None) builds a fresh
ImageCacheFile from a freshly built spec, stores it in instance.__dict__
(ImageCacheFile construction is modelled, per spec section 4.10, as
allocating a fresh, truthy file object), and returns it.  Object identity
is modelled by an allocation counter. -/

/-- A record instance: its own attribute storage (__dict__, an association
list written by newest-first shadowing) and the allocator for fresh
Python object identities. -/
structure PyInstance where
  dict : List (String × Nat)
  nextId : Nat
deriving DecidableEq, Repr

/-- Translation of ImageSpecFileDescriptor.__get__ for a non-None instance:
build the spec from the current source, allocate a fresh ImageCacheFile,
store it under attname in the instance __dict__, and return it. -/
def descriptor_get (attname : String) (inst : PyInstance) : Nat × PyInstance :=
  let file := inst.nextId
  (file, ⟨(attname, file) :: inst.dict, inst.nextId + 1⟩)

/-- Python attribute lookup for an attribute whose class slot holds a data
descriptor (one with both __get__ and __set__): every read invokes the
descriptor's __get__; the instance __dict__ is bypassed. -/
def instance_attr_read (attname : String) (inst : PyInstance) : Nat × PyInstance :=
  descriptor_get attname inst

/-! ## template.py: generateimage / GenerateImage.__str__

`def generateimage(generator_id, html_attrs={}, **kwargs)` evaluates the
default mapping once, at function-definition time; every call that omits
html_attrs receives that same mapping object.  Mappings are therefore kept
in an explicit heap of mutable dictionaries; slot 0 is the shared default
mapping, initially empty. -/

/-- The realized cache file behind a GenerateImage object: its pixel
dimensions and public URL. -/
structure FileInfo where
  width : Nat
  height : Nat
  url : String
deriving DecidableEq, Repr

/-- The heap of live attribute mappings; index 0 is generateimage's shared
default html_attrs mapping. -/
structure Heap where
  dicts : List (List (String × String))
deriving DecidableEq, Repr

/-- The heap at module-import time: only the default mapping, empty. -/
def initialHeap : Heap := ⟨[[]]⟩

/-- Read a mapping out of the heap. -/
def Heap.getDict (h : Heap) (i : Nat) : List (String × String) :=
  h.dicts.getD i []

/-- Replace a mapping in the heap. -/
def Heap.setDict (h : Heap) (i : Nat) (d : List (String × String)) : Heap :=
  ⟨h.dicts.set i d⟩

/-- Python `key in dict`. -/
def alHas (d : List (String × String)) (key : String) : Bool :=
  d.any (fun p => p.1 == key)

/-- Python dict assignment d[key] = v: replace in place if present, else
append (insertion order preserved). -/
def alSet (d : List (String × String)) (key v : String) : List (String × String) :=
  if alHas d key then d.map (fun p => if p.1 == key then (key, v) else p)
  else d ++ [(key, v)]

/-- Python dict lookup. -/
def alGet (d : List (String × String)) (key : String) : Option String :=
  (d.find? (fun p => p.1 == key)).map (fun p => p.2)

/-- A GenerateImage render object: the html_attrs mapping it holds (by
heap reference, as in Python) and its resolved cache file. -/
structure GenerateImage where
  attrsId : Nat
  file : FileInfo
deriving DecidableEq, Repr

/-- Translation of the generateimage helper: an omitted html_attrs argument
means the shared default mapping (heap slot 0). -/
def generateimage (htmlAttrs : Option Nat) (file : FileInfo) : GenerateImage :=
  ⟨htmlAttrs.getD 0, file⟩

/-- Render an attribute mapping as the inside of an img tag. -/
def renderAttrs (d : List (String × String)) : String :=
  String.intercalate " " (d.map (fun p => p.1 ++ "=\"" ++ p.2 ++ "\""))

/-- Translation of GenerateImage.__str__: inject width and height into the
held mapping when neither is present, always write src, then emit the
markup.  Returns the updated heap (the mutation of the mapping) and the
rendered string. -/
def gi_str (h : Heap) (g : GenerateImage) : Heap × String :=
  let attrs := h.getDict g.attrsId
  let attrs1 :=
    if !alHas attrs "width" && !alHas attrs "height" then
      alSet (alSet attrs "width" (toString g.file.width)) "height" (toString g.file.height)
    else attrs
  let attrs2 := alSet attrs1 "src" g.file.url
  (h.setDict g.attrsId attrs2, "<img " ++ renderAttrs attrs2 ++ " />")

/-! ## Helper lemmas -/

/-- Lookup into the Nat-valued instance __dict__. -/
def dictGet (d : List (String × Nat)) (key : String) : Option Nat :=
  (d.find? (fun p => p.1 == key)).map (fun p => p.2)

theorem cache_get_set_same (c : SimpleCache) (key v : String) (timeout : Option Nat)
    (now t : Nat) :
    (c.set key v timeout now).get key t =
      if normalize_timeout timeout now = 0 ∨ t < normalize_timeout timeout now
      then some v else none := by
  unfold SimpleCache.set SimpleCache.get
  rw [List.find?_cons_of_pos _ (by simp)]

/-- C5 (code_bug evidence): the body of ImageSpec.get_hash references the
global name `hashers`, and that name is not bound anywhere in the module
namespace of specs/__init__.py (nor is it a Python builtin), so every call
of get_hash raises NameError instead of returning a fingerprint. -/
theorem C5_get_hash_hashers_unbound :
    "hashers" ∈ get_hash_global_refs ∧ "hashers" ∉ specs_module_names := by
  decide

/-- C8 (code_bug evidence): signals.py creates exactly the three channels
content_required, existence_required and source_saved; the post-construction
channel `post_init` that models/fields/__init__.py imports from the signals
module is not among them, so the signal bus defines three channels, not
four, and importing the fields module fails. -/
theorem C8_post_init_channel_missing :
    "content_required" ∈ imagekit_signal_names ∧
    "existence_required" ∈ imagekit_signal_names ∧
    "source_saved" ∈ imagekit_signal_names ∧
    "post_init" ∈ fields_signals_imports ∧
    "post_init" ∉ imagekit_signal_names := by
  decide

/-- C1 counterexample: on a concrete fresh instance, reading the
declarative-field attribute twice (with no intervening write) does not
return the same cache-file object -- the second read allocates a fresh
one, because the data descriptor's __get__ runs again instead of returning
the value stored in the instance __dict__. -/
theorem C1_counterexample :
    (instance_attr_read "thumbnail" ⟨[], 0⟩).1 ≠
      (instance_attr_read "thumbnail" (instance_attr_read "thumbnail" ⟨[], 0⟩).2).1 := by
  decide

/-- C1 (amended): every read of the declarative-field attribute rebuilds the
specification and returns a freshly allocated cache-file object; the read
does store that object in the instance's own attribute storage, but a
second read returns a different, newer object rather than the stored one,
because the descriptor (defining both __get__ and __set__) is a data
descriptor and attribute lookup never consults the instance __dict__. -/
theorem C1_descriptor_rebuilds (inst : PyInstance) (attname : String) :
    (instance_attr_read attname inst).1 = inst.nextId ∧
    dictGet (instance_attr_read attname inst).2.dict attname
      = some (instance_attr_read attname inst).1 ∧
    (instance_attr_read attname (instance_attr_read attname inst).2).1
      ≠ (instance_attr_read attname inst).1 ∧
    dictGet (instance_attr_read attname (instance_attr_read attname inst).2).2.dict attname
      = some (instance_attr_read attname (instance_attr_read attname inst).2).1 := by
  refine ⟨rfl, ?_, by simp [instance_attr_read, descriptor_get], ?_⟩ <;>
    simp [instance_attr_read, descriptor_get, dictGet]

/-- C4: set_state passes the short existence-recheck timeout (5 seconds) to
the state cache exactly for DOES_NOT_EXIST writes and no explicit timeout
otherwise; immediately after set_state the cache returns the written
state, and once the 5-second window has elapsed a DOES_NOT_EXIST entry has
expired while an EXISTS entry written at the same moment has not. -/
theorem C4_set_state_ttl_asymmetry (c : SimpleCache) (useSafe : Bool)
    (cachePre fileName : String) (state : CacheFileState) (now : Nat) :
    (set_state_timeout state = some existence_check_timeout
      ↔ state = CacheFileState.DOES_NOT_EXIST) ∧
    (set_state c useSafe cachePre fileName state now).get
      (get_key useSafe cachePre fileName) now = some state.toStr ∧
    (set_state c useSafe cachePre fileName CacheFileState.DOES_NOT_EXIST now).get
      (get_key useSafe cachePre fileName) (now + existence_check_timeout) = none ∧
    (set_state c useSafe cachePre fileName CacheFileState.EXISTS now).get
      (get_key useSafe cachePre fileName) (now + existence_check_timeout)
      = some "exists" := by
  refine ⟨?_, ?_, ?_, ?_⟩
  · cases state <;> simp [set_state_timeout, existence_check_timeout]
  · cases state <;>
      · rw [set_state, cache_get_set_same]
        rw [if_pos (by simp [set_state_timeout, normalize_timeout,
          existence_check_timeout, simplecache_default_timeout])]
  · rw [set_state, cache_get_set_same]
    rw [if_neg (by simp [set_state_timeout, normalize_timeout,
      existence_check_timeout, simplecache_default_timeout])]
  · rw [set_state, cache_get_set_same]
    rw [if_pos (by simp [set_state_timeout, normalize_timeout,
      existence_check_timeout, simplecache_default_timeout])]
    rfl

/-- C2: when generation actually runs (force, or the current state is
neither GENERATING nor EXISTS) and the file's own generation routine
raises, generate_now returns normally (the embedding is a total function:
the try/except catches the exception), logs exactly one warning naming the
failure, and leaves the state cache reporting DOES_NOT_EXIST for the
file's key. -/
theorem C2_generate_now_soft_failure (c : SimpleCache) (useSafe : Bool)
    (cachePre fileName : String) (existsInStorage force : Bool) (err : String)
    (now : Nat)
    (h : force = true ∨
      ((get_state c useSafe cachePre fileName existsInStorage true now).2
          ≠ some "generating" ∧
       (get_state c useSafe cachePre fileName existsInStorage true now).2
          ≠ some "exists")) :
    (generate_now c useSafe cachePre fileName existsInStorage force
        (Except.error err) now).2
      = ["Exception generating file, marking file as not existing: " ++ err] ∧
    (generate_now c useSafe cachePre fileName existsInStorage force
        (Except.error err) now).1.get (get_key useSafe cachePre fileName) now
      = some "does_not_exist" := by
  have hgn : generate_now c useSafe cachePre fileName existsInStorage force
      (Except.error err) now =
      (set_state (set_state (get_state c useSafe cachePre fileName existsInStorage
          true now).1 useSafe cachePre fileName CacheFileState.GENERATING now)
        useSafe cachePre fileName CacheFileState.DOES_NOT_EXIST now,
       ["Exception generating file, marking file as not existing: " ++ err]) := by
    rw [generate_now, if_pos h]
  rw [hgn]
  refine ⟨rfl, ?_⟩
  rw [set_state, cache_get_set_same]
  rw [if_pos (by simp [set_state_timeout, normalize_timeout,
    existence_check_timeout, simplecache_default_timeout])]
  rfl

/-- C2 witness: a concrete run -- empty state cache, storage reporting the
file absent, force set, generation raising "boom". -/
theorem C2_generate_now_soft_failure_witness :
    (generate_now ⟨[]⟩ false "imagekit:" "x.jpg" false true
        (Except.error "boom") 0).2
      = ["Exception generating file, marking file as not existing: " ++ "boom"] ∧
    (generate_now ⟨[]⟩ false "imagekit:" "x.jpg" false true
        (Except.error "boom") 0).1.get (get_key false "imagekit:" "x.jpg") 0
      = some "does_not_exist" :=
  C2_generate_now_soft_failure ⟨[]⟩ false "imagekit:" "x.jpg" false true "boom" 0
    (Or.inl rfl)

theorem run_pipeline_ne_missingSource {Img Out : Type} (env : PipelineEnv Img Out)
    (m : String) :
    run_pipeline env ≠ Except.error (SpecGenErr.missingSource m) := by
  unfold run_pipeline
  rcases env.open1 with e | img
  · cases e with
    | valueError msg =>
        rcases env.open2 with e2 | img2
        · simp
        · rcases hp : env.process img2 with e3 | o <;> simp [Except.mapError, hp]
    | otherError msg => simp
  · rcases hp : env.process img with e3 | o <;> simp [Except.mapError, hp]

/-- C3: ImageSpec.generate raises MissingSource exactly when the spec has
no bound source; with a source bound it never raises MissingSource and
runs the open-with-retry-then-process pipeline. -/
theorem C3_generate_missing_source {Src Img Out : Type} (specRepr : String)
    (src : Option Src) (env : PipelineEnv Img Out) :
    ((∃ m, ImageSpec.generate specRepr src env
        = Except.error (SpecGenErr.missingSource m)) ↔ src = none) ∧
    (∀ s, src = some s →
      ImageSpec.generate specRepr src env = run_pipeline env) := by
  constructor
  · constructor
    · rintro ⟨m, hm⟩
      cases src with
      | none => rfl
      | some s =>
          rw [ImageSpec.generate] at hm
          exact absurd hm (run_pipeline_ne_missingSource env m)
    · rintro rfl
      exact ⟨_, rfl⟩
  · rintro s rfl
    rfl

/-- C3 witness: with a bound source and a pipeline that opens and processes
successfully, generate runs the pipeline (and in particular does not raise
MissingSource). -/
theorem C3_generate_missing_source_witness :
    ImageSpec.generate "thumbnail spec" (some (0 : Nat))
        (⟨Except.ok 0, Except.ok 0, fun i => Except.ok i⟩ : PipelineEnv Nat Nat)
      = run_pipeline (⟨Except.ok 0, Except.ok 0, fun i => Except.ok i⟩ :
          PipelineEnv Nat Nat) :=
  (C3_generate_missing_source "thumbnail spec" (some 0)
    ⟨Except.ok 0, Except.ok 0, fun i => Except.ok i⟩).2 0 rfl

/-- C9 (code_bug evidence): because Python 2 parses the unescaped pattern
as the literal range '0'-'u' plus whitespace, sanitization with the
memcached-safe flag set strips ordinary printable characters -- the key
"ab cd" is wiped to the empty key -- while a control character such as
U+0001 (exactly what memcached keys must not contain, per the code's own
comment) passes through sanitization untouched. -/
theorem C9_sanitize_strips_wrong_set :
    sanitize_cache_key true "ab cd" = "" ∧
    sanitize_cache_key true (String.mk [Char.ofNat 0x01])
      = String.mk [Char.ofNat 0x01] ∧
    isBadMemcachedChar (Char.ofNat 0x01) = false ∧
    isBadMemcachedChar 'a' = true := by
  refine ⟨by decide, by decide, by decide, by decide⟩

/-- C6: get_image tries the source representations in order -- the
to_imagekit (path-rendering) capability resolves via the rendered string;
otherwise a readable/seekable stream is returned as-is; otherwise a string
beginning with "http" is fetched over HTTP (regardless of whether it also
names an openable local path), yielding the buffered body on status 200
and an error naming the status code otherwise; otherwise the string is
opened for binary read under the configured media root and prefix; any
other value fails with the cannot-extract error naming the value. -/
theorem C6_get_image_resolution_order (env : ResolveEnv) (mediaRoot basePre : String)
    (f : FieldValue) :
    (∀ s, f.to_imagekit = some s →
      get_image env mediaRoot basePre f = handle_string env mediaRoot basePre s) ∧
    (f.to_imagekit = none → f.hasSeekRead = true →
      get_image env mediaRoot basePre f = .ok (.asIs f)) ∧
    (∀ s, f.to_imagekit = none → f.hasSeekRead = false → f.asString = some s →
      pyStartsWith s "http" = true →
      (((env.httpGet s).1 = 200 →
          get_image env mediaRoot basePre f = .ok (.httpBody (env.httpGet s).2)) ∧
       ((env.httpGet s).1 ≠ 200 →
          get_image env mediaRoot basePre f
            = .error (.httpError (env.httpGet s).1 s)))) ∧
    (∀ s, f.to_imagekit = none → f.hasSeekRead = false → f.asString = some s →
      pyStartsWith s "http" = false →
      pyStartsWith (pyJoin3 mediaRoot basePre s) "http" = false →
      get_image env mediaRoot basePre f
        = (if env.openable (pyJoin3 mediaRoot basePre s)
           then .ok (.localFile (pyJoin3 mediaRoot basePre s))
           else .error (.ioError (pyJoin3 mediaRoot basePre s)))) ∧
    (f.to_imagekit = none → f.hasSeekRead = false → f.asString = none →
      get_image env mediaRoot basePre f = .error (.cannotExtract f.reprStr)) := by
  refine ⟨?_, ?_, ?_, ?_, ?_⟩
  · intro s hs
    rw [get_image, hs]
  · intro h1 h2
    rw [get_image, h1, if_pos h2]
  · intro s h1 h2 h3 hhttp
    have hg : get_image env mediaRoot basePre f = get_http_asset env s := by
      rw [get_image, h1, h2, h3]
      simp only [Bool.false_eq_true, if_false]
      rw [handle_string, if_pos hhttp]
    constructor
    · intro h200
      rw [hg, get_http_asset, if_pos h200]
    · intro h200
      rw [hg, get_http_asset, if_neg h200]
  · intro s h1 h2 h3 hhttp hjoin
    rw [get_image, h1, h2, h3]
    simp only [Bool.false_eq_true, if_false]
    rw [handle_string, if_neg (by simp [hhttp])]
    simp only [hjoin, Bool.false_eq_true, if_false]
  · intro h1 h2 h3
    rw [get_image, h1, h2, h3]
    simp only [Bool.false_eq_true, if_false]

/-- C6 witness: with a server answering 404 and every local path openable,
an http-prefixed string source fails with an error naming status 404, and
a plain string source resolves to the joined local path under the default
media root. -/
theorem C6_get_image_resolution_order_witness :
    get_image ⟨fun _ => (404, ""), fun _ => true⟩ "/tmp/flask-imagekit/" ""
        ⟨none, false, some "http://host/a.jpg", "field"⟩
      = Except.error (.httpError 404 "http://host/a.jpg") ∧
    get_image ⟨fun _ => (404, ""), fun _ => true⟩ "/tmp/flask-imagekit/" ""
        ⟨none, false, some "a.jpg", "field"⟩
      = Except.ok (.localFile (pyJoin3 "/tmp/flask-imagekit/" "" "a.jpg")) :=
  ⟨((C6_get_image_resolution_order ⟨fun _ => (404, ""), fun _ => true⟩
      "/tmp/flask-imagekit/" "" ⟨none, false, some "http://host/a.jpg", "field"⟩).2.2.1
      "http://host/a.jpg" rfl rfl rfl (by decide)).2 (by decide),
   (C6_get_image_resolution_order ⟨fun _ => (404, ""), fun _ => true⟩
      "/tmp/flask-imagekit/" "" ⟨none, false, some "a.jpg", "field"⟩).2.2.2.1
      "a.jpg" rfl rfl rfl (by decide) (by decide)⟩

theorem find?_map_set (d : List (String × String)) (k v : String)
    (h : alHas d k = true) :
    (d.map (fun p => if p.1 == k then (k, v) else p)).find? (fun p => p.1 == k)
      = some (k, v) := by
  induction d with
  | nil => simp [alHas] at h
  | cons q t ih =>
      by_cases hq : (q.1 == k) = true
      · have h1 : (q :: t).map (fun p => if p.1 == k then (k, v) else p)
            = (k, v) :: t.map (fun p => if p.1 == k then (k, v) else p) := by
          rw [List.map_cons, if_pos hq]
        rw [h1, List.find?_cons_of_pos (p := fun x : String × String => x.1 == k) _ (by simp)]
      · have ht : alHas t k = true := by
          rw [alHas] at h ⊢
          simpa [hq] using h
        have h1 : (q :: t).map (fun p => if p.1 == k then (k, v) else p)
            = q :: t.map (fun p => if p.1 == k then (k, v) else p) := by
          rw [List.map_cons, if_neg hq]
        rw [h1, List.find?_cons_of_neg (p := fun x : String × String => x.1 == k) _ hq]
        exact ih ht

theorem alGet_alSet_self (d : List (String × String)) (k v : String) :
    alGet (alSet d k v) k = some v := by
  rw [alSet]
  by_cases h : alHas d k = true
  · rw [if_pos h, alGet, find?_map_set d k v h]
    rfl
  · rw [if_neg h, alGet]
    rw [List.find?_append]
    have hnone : d.find? (fun p => p.1 == k) = none := by
      rw [List.find?_eq_none]
      intro p hp hpk
      exact h (List.any_eq_true.mpr ⟨p, hp, hpk⟩)
    simp [hnone]

theorem getDict_setDict_self (h : Heap) (i : Nat) (d : List (String × String))
    (hi : i < h.dicts.length) :
    (h.setDict i d).getDict i = d := by
  rw [Heap.setDict, Heap.getDict]
  rw [List.getD_eq_getElem?_getD, List.getElem?_set_eq_of_lt _ hi, Option.getD_some]

/-- C10: producing the textual form of a generateimage render object
mutates the html_attrs mapping the caller supplied -- src is always
written into it; and because the default html_attrs is one shared mapping
(heap slot 0), a first default-argument call injects its file's width and
height there, a later default-argument call holds the very same mapping,
sees width already present, keeps the first file's dimensions instead of
injecting its own, and only overwrites src. -/
theorem C10_generateimage_shared_default (callerHeap : Heap) (g : GenerateImage)
    (f1 f2 : FileInfo) (hvalid : g.attrsId < callerHeap.dicts.length) :
    (alGet ((gi_str callerHeap g).1.getDict g.attrsId) "src" = some g.file.url) ∧
    ((generateimage none f1).attrsId = 0 ∧
     (generateimage none f2).attrsId = 0 ∧
     (let h1 := (gi_str initialHeap (generateimage none f1)).1
      let h2 := (gi_str h1 (generateimage none f2)).1
      alGet (h1.getDict 0) "width" = some (toString f1.width) ∧
      alGet (h1.getDict 0) "height" = some (toString f1.height) ∧
      alGet (h1.getDict 0) "src" = some f1.url ∧
      alGet (h2.getDict 0) "width" = some (toString f1.width) ∧
      alGet (h2.getDict 0) "height" = some (toString f1.height) ∧
      alGet (h2.getDict 0) "src" = some f2.url)) := by
  refine ⟨?_, rfl, rfl, ?_⟩
  · simp only [gi_str]
    rw [getDict_setDict_self _ _ _ hvalid, alGet_alSet_self]
  · exact ⟨rfl, rfl, rfl, rfl, rfl, rfl⟩

/-- C10 witness: a concrete default-argument call whose rendering writes
the file's URL into the shared mapping. -/
theorem C10_generateimage_shared_default_witness :
    alGet ((gi_str initialHeap
        (generateimage none ⟨100, 80, "/static/CACHE/images/x.jpg"⟩)).1.getDict
        (generateimage none ⟨100, 80, "/static/CACHE/images/x.jpg"⟩).attrsId) "src"
      = some "/static/CACHE/images/x.jpg" :=
  (C10_generateimage_shared_default initialHeap
    (generateimage none ⟨100, 80, "/static/CACHE/images/x.jpg"⟩)
    ⟨1, 1, "u1"⟩ ⟨2, 2, "u2"⟩ (by decide)).1

/-- C7 (code_bug evidence): django_ported/storage.py imports
SuspiciousFileOperation from the package's exceptions module, but that
module does not bind the name, so loading the storage module raises
ImportError and Storage.get_available_name can never run; the claimed
"no available filename" failure names a class that does not exist in the
package. -/
theorem C7_suspicious_file_operation_unbound :
    "SuspiciousFileOperation" ∈ storage_exceptions_imports ∧
    "SuspiciousFileOperation" ∉ exceptions_module_names := by
  decide

end FlaskImagekit
